import Mathlib

/-!
Shallow embedding of `src/s3-benchmark.py` (standalone mode).

The Python program parses CLI arguments (`ArgHandler`), verifies them
(`ArgHandler.verify_args`, lines 185-219), seeds a `queue.Queue` with
`testfile-<i>` names (lines 241-243), starts `args.threads` daemon worker
threads running `worker` (lines 221-228, 245-248), and blocks in
`que.join()` (line 249).

Conventions of the embedding:
- Python `None`-able CLI values are `Option` values; Python truthiness of
  a string/int option is tested explicitly (`none`/`""`/`0` are falsy).
- `sys.exit(c)` and an uncaught Python exception are the two failure modes
  of a run prelude; both are modelled by `PyOutcome`.
- Machine integers are `Int`/`Nat` (Python ints are unbounded, so no
  modular reduction is needed).
- The concurrent part (queue + worker threads) is modelled further below
  as a small-step interleaving transition system `WorkerStep`.
-/

/-- Outcome of running a piece of Python code that can call `sys.exit`
or raise an uncaught exception (named by the Python exception class). -/
inductive PyOutcome (α : Type) where
  | ok (a : α)
  | sysExit (code : Nat)
  | exn (name : String)
  deriving Repr, DecidableEq

/-- A Python process that ends in `sys.exit c` with `c ≠ 0`, or dies on an
uncaught exception, exits with a non-zero status; only `ok` (falling off
the end of the script) exits zero. -/
def PyOutcome.exitsNonZero : PyOutcome α → Bool
  | .ok _ => false
  | .sysExit c => c ≠ 0
  | .exn _ => true

/-- ASCII decimal digit test, as Python `int()` accepts for each char. -/
def isDigit (c : Char) : Bool := '0' ≤ c && c ≤ '9'

/-- Value of a digit string, most significant digit first. -/
def digitsToNat (l : List Char) : Nat :=
  l.foldl (fun a c => a * 10 + (c.toNat - 48)) 0

/-- Model of Python `int(s)` on the strings this program can feed it:
an optional minus sign followed by one or more ASCII digits parses to the
signed value; anything else raises `ValueError` (modelled as `none`). -/
def pyIntAux : List Char → Option Int
  | [] => none
  | c :: rest =>
      if c = '-' then
        if rest ≠ [] ∧ rest.all isDigit then some (-(digitsToNat rest : Int)) else none
      else if (c :: rest).all isDigit then some (digitsToNat (c :: rest) : Int) else none

/-- Python `int(s)`, reading the string's character list. -/
def pyInt (s : String) : Option Int := pyIntAux s.data

/-- Python `s[-1]` for the non-empty strings it is applied to
(the default is never reached under the guards below). -/
def lastChar (s : String) : Char := s.data.getLastD (Char.ofNat 0)

/-- Python `s[:-1]`. -/
def strInit (s : String) : String := ⟨s.data.dropLast⟩

/-- The parsed standalone-mode CLI arguments as `argparse` delivers them
(`ArgHandler.add_standalone_arguments`, lines 130-162): `-t` is an
optional `int`, `-p`/`-sz` optional strings, `-o`/`-n` required strings.
The field `pfx` models `args.prefix`. -/
structure Args where
  threads : Option Int
  endpoint : String
  key : String
  secret : String
  bucket : String
  pfx : Option String
  size : Option String
  operation : String
  number : String
  deriving Repr, DecidableEq

/-- The argument record after `verify_args` has mutated it: `threads` is
a concrete int, `size` is the parsed byte count (or still `None` when the
`-sz` flag was absent/empty — `verify_args` only assigns it inside
`if args.size:`), `pfx` is the normalized prefix string. -/
structure VArgs where
  threads : Int
  size : Option Int
  pfx : String
  operation : String
  deriving Repr, DecidableEq

/-- `MAX_THREADS = 100` (line 8). -/
def MAX_THREADS : Int := 100

/-- Lines 187-192: `if args.threads:` (falsy for `None` and `0`), reject
counts over `MAX_THREADS` via `sys.exit(1)`, else default to 10. -/
def verify_threads (t : Option Int) : PyOutcome Int :=
  match t with
  | none => .ok 10
  | some n =>
      if n ≠ 0 then
        if n > MAX_THREADS then .sysExit 1 else .ok n
      else .ok 10

/-- Lines 195-206: `if args.size:` (falsy for `None` and `""`), dispatch on
the last character; `K`/`M`/`G` multiply `int(args.size[:-1])` by 1024,
1024², 1024³; any other last character logs and `sys.exit(1)`; a numeric
part `int()` cannot parse raises `ValueError`. On the falsy branch
`args.size` is left untouched (stays `None`/`""` → modelled `none`). -/
def verify_size (sz : Option String) : PyOutcome (Option Int) :=
  match sz with
  | none => .ok none
  | some s =>
      if s = "" then .ok none
      else if lastChar s = 'K' then
        match pyInt (strInit s) with
        | some n => .ok (some (n * 1024))
        | none => .exn "ValueError"
      else if lastChar s = 'M' then
        match pyInt (strInit s) with
        | some n => .ok (some (n * 1024 * 1024))
        | none => .exn "ValueError"
      else if lastChar s = 'G' then
        match pyInt (strInit s) with
        | some n => .ok (some (n * 1024 * 1024 * 1024))
        | none => .exn "ValueError"
      else .sysExit 1

/-- Lines 208-214: `if args.prefix:` (falsy for `None` and `""`) append a
`'/'` unless one is already last; on the falsy branch set `args.prefix = ''`. -/
def verify_pfx (p : Option String) : String :=
  match p with
  | none => ""
  | some s =>
      if s = "" then ""
      else if lastChar s ≠ '/' then s ++ "/" else s

/-- Lines 216-218: operations other than `upload`/`download` exit 1. -/
def verify_operation (op : String) : PyOutcome String :=
  if op = "upload" ∨ op = "download" then .ok op else .sysExit 1

/-- `ArgHandler.verify_args` (lines 185-219) for `command = standalone`,
in source order: threads, size, prefix, operation. `args.number` is never
inspected here. -/
def verify_args (a : Args) : PyOutcome VArgs :=
  match verify_threads a.threads with
  | .sysExit c => .sysExit c
  | .exn e => .exn e
  | .ok t =>
      match verify_size a.size with
      | .sysExit c => .sysExit c
      | .exn e => .exn e
      | .ok sz =>
          let p := verify_pfx a.pfx
          match verify_operation a.operation with
          | .sysExit c => .sysExit c
          | .exn e => .exn e
          | .ok op => .ok ⟨t, sz, p, op⟩

/-- `random_file(size)` (lines 76-85) is `os.urandom(size)`. The payload
content is random and irrelevant to the claims, so the model returns the
byte count. `os.urandom(None)` raises `TypeError`, `os.urandom(n)` with
`n < 0` raises `ValueError`. -/
def random_file : Option Int → PyOutcome Int
  | none => .exn "TypeError"
  | some n => if n < 0 then .exn "ValueError" else .ok n

/-- The names enqueued by the seeding loop (lines 242-243):
`que.put('testfile-' + str(i))` for `i in range(count)`. -/
def seedKeys (count : Nat) : List String :=
  (List.range count).map (fun i => "testfile-" ++ toString i)

/-- The object key `S3.put_object` actually writes (line 61):
`str(prefix + remote_file)`. -/
def put_object_key (p obj : String) : String := p ++ obj

/-- The ordered sequence of effective object keys a run with normalized
prefix `p` and item count `count` addresses: the enqueued name of each
item, prefixed as `put_object` does. -/
def effectiveKeys (p : String) (count : Nat) : List String :=
  (seedKeys count).map (put_object_key p)

/-- Observable milestones of the `__main__` standalone block (lines
237-249), recorded in program order: `s3 = S3(...)` (line 240), number of
`que.put` calls (lines 242-243), number of `Thread(...).start()` calls
(lines 245-248), whether control reached `que.join()` (line 249). -/
structure RunTrace where
  clientCreated : Bool
  itemsEnqueued : Nat
  workersStarted : Nat
  reachedJoin : Bool
  deriving Repr, DecidableEq

/-- The trace before anything in the `__main__` body has run. -/
def initTrace : RunTrace := ⟨false, 0, 0, false⟩

/-- The `__main__` standalone prelude (lines 237-249): run `verify_args`
(inside `parse_args`, line 237); on success create the S3 client
(line 240), evaluate `int(args.number)` (line 242) — a `ValueError` there
aborts before any `que.put` — then enqueue `range(n)` items and start
`args.threads` daemon threads, reaching `que.join()`. Whether `join`
returns is settled by the worker transition system, not here. -/
def mainStandalone (a : Args) : PyOutcome VArgs × RunTrace :=
  match verify_args a with
  | .sysExit c => (.sysExit c, initTrace)
  | .exn e => (.exn e, initTrace)
  | .ok v =>
      match pyInt a.number with
      | none => (.exn "ValueError", ⟨true, 0, 0, false⟩)
      | some n => (.ok v, ⟨true, n.toNat, v.threads.toNat, true⟩)

example : verify_size (some "10K") = .ok (some 10240) := by decide
example : verify_size (some "2M") = .ok (some 2097152) := by decide
example : verify_size (some "1G") = .ok (some 1073741824) := by decide
example : verify_size (some "10X") = .sysExit 1 := by decide
example : verify_pfx (some "bench") = "bench/" := by decide
example : verify_pfx (some "bench/") = "bench/" := by decide
example : verify_pfx none = "" := by decide
example : verify_threads (some 0) = .ok 10 := by decide
example : verify_threads (some 101) = .sysExit 1 := by decide

/-! ## The concurrent worker system

`worker(que, size, prefix)` (lines 221-228):

```
while not que.empty():
  obj = que.get()
  if args.operation == 'upload':
    s3.put_object(args.bucket, random_file(size), obj, prefix)
  elif args.operation == 'download':
    s3.download(args.bucket, obj)
  que.task_done()
```

Each worker thread is a small program over the shared `queue.Queue`:
the `empty()` test and the (blocking) `get()` are two separate atomic
queue operations; `put` incremented `unfinished_tasks`, `task_done()`
decrements it, and `que.join()` returns exactly when it is zero. The
`S3` class (lines 10-74) defines `list_bucket_objects`, `put_object` and
`delete_object` but no method named `download`, so the download branch
raises `AttributeError`; an exception thrown anywhere in the loop body
propagates and kills the thread (there is no `try`/`except`), skipping
`que.task_done()`. -/

/-- The value of `args.operation` after verification. -/
inductive Op where
  | upload
  | download
  deriving Repr, DecidableEq

/-- The control point of one worker thread inside `worker`. -/
inductive WStatus where
  | checking
  | getting
  | processing (obj : String)
  | blocked
  | crashed
  | exited
  deriving Repr, DecidableEq

/-- Shared state of the run: the pending items of the `Queue`, its
`unfinished_tasks` counter, the number of `task_done()` calls so far, the
S3 API calls issued so far (keys passed to `put_object` / to a get-object
style call), and the control point of every worker thread. -/
structure SysState where
  queue : List String
  unfinished : Nat
  taskDone : Nat
  putCalls : List String
  getCalls : List String
  workers : List WStatus
  deriving Repr, DecidableEq

/-- Interleaving small-step semantics of the worker threads, parameterized
by the run configuration: `op = args.operation`, `sz = args.size` after
verification, and `storeErr obj` telling whether the store API raises on
the `put_object` call for `obj`.

- `checkNonempty`/`checkEmpty`: the `while not que.empty()` test.
- `getItem`: `que.get()` atomically removes the head item.
- `getBlocked`: `que.get()` on an empty queue blocks the daemon thread
  forever (the queue is never refilled); `blocked` has no outgoing step.
- `procUploadNoPayload`: on the upload branch `random_file(size)` raises
  (e.g. `TypeError` for `size = None`) before `put_object` is reached;
  the exception kills the thread, `task_done` is skipped.
- `procUploadRaise`: `put_object` is called and raises; thread dies.
- `procUploadOk`: `put_object` succeeds, `que.task_done()` runs.
- `procDownload`: `s3.download` does not exist on `S3`; `AttributeError`
  kills the thread with no store call and no `task_done`. -/
inductive WorkerStep (op : Op) (sz : Option Int) (storeErr : String → Bool) :
    SysState → SysState → Prop
  | checkNonempty (i : Nat) (s : SysState)
      (hw : s.workers.get? i = some .checking) (hq : s.queue ≠ []) :
      WorkerStep op sz storeErr s { s with workers := s.workers.set i .getting }
  | checkEmpty (i : Nat) (s : SysState)
      (hw : s.workers.get? i = some .checking) (hq : s.queue = []) :
      WorkerStep op sz storeErr s { s with workers := s.workers.set i .exited }
  | getItem (i : Nat) (s : SysState) (x : String) (rest : List String)
      (hw : s.workers.get? i = some .getting) (hq : s.queue = x :: rest) :
      WorkerStep op sz storeErr s
        { s with queue := rest, workers := s.workers.set i (.processing x) }
  | getBlocked (i : Nat) (s : SysState)
      (hw : s.workers.get? i = some .getting) (hq : s.queue = []) :
      WorkerStep op sz storeErr s { s with workers := s.workers.set i .blocked }
  | procUploadNoPayload (i : Nat) (s : SysState) (x : String) (e : String)
      (hw : s.workers.get? i = some (.processing x)) (hop : op = .upload)
      (hrf : random_file sz = .exn e) :
      WorkerStep op sz storeErr s { s with workers := s.workers.set i .crashed }
  | procUploadRaise (i : Nat) (s : SysState) (x : String) (b : Int)
      (hw : s.workers.get? i = some (.processing x)) (hop : op = .upload)
      (hrf : random_file sz = .ok b) (herr : storeErr x = true) :
      WorkerStep op sz storeErr s
        { s with putCalls := s.putCalls ++ [x], workers := s.workers.set i .crashed }
  | procUploadOk (i : Nat) (s : SysState) (x : String) (b : Int)
      (hw : s.workers.get? i = some (.processing x)) (hop : op = .upload)
      (hrf : random_file sz = .ok b) (herr : storeErr x = false) :
      WorkerStep op sz storeErr s
        { s with putCalls := s.putCalls ++ [x],
                 unfinished := s.unfinished - 1,
                 taskDone := s.taskDone + 1,
                 workers := s.workers.set i .checking }
  | procDownload (i : Nat) (s : SysState) (x : String)
      (hw : s.workers.get? i = some (.processing x)) (hop : op = .download) :
      WorkerStep op sz storeErr s { s with workers := s.workers.set i .crashed }

/-- States reachable by any interleaving of worker steps. -/
abbrev WReach (op : Op) (sz : Option Int) (storeErr : String → Bool)
    (s t : SysState) : Prop :=
  Relation.ReflTransGen (WorkerStep op sz storeErr) s t

/-- The system state right after seeding `count` items and starting `w`
worker threads (each at the top of the `while` loop): `que.put` has
incremented `unfinished_tasks` once per item, nothing is done yet, no
store call has been issued. -/
def initSys (count w : Nat) : SysState :=
  ⟨seedKeys count, count, 0, [], [], List.replicate w .checking⟩

/-- `que.join()` (line 249) returns exactly when `unfinished_tasks` is 0. -/
def joinReturns (s : SysState) : Prop := s.unfinished = 0

/-! ## Basic lemmas about the embedded helpers -/

lemma isDigit_ne_dash {c : Char} (h : isDigit c = true) : c ≠ '-' := by
  intro hc
  subst hc
  exact absurd h (by decide)

lemma pyIntAux_digits (c : Char) (rest : List Char)
    (h : (c :: rest).all isDigit = true) :
    pyIntAux (c :: rest) = some (digitsToNat (c :: rest) : Int) := by
  have hc : isDigit c = true := by
    simp only [List.all_cons, Bool.and_eq_true] at h
    exact h.1
  simp only [pyIntAux, if_neg (isDigit_ne_dash hc), if_pos h]

lemma pyInt_digits (c : Char) (rest : List Char)
    (h : (c :: rest).all isDigit = true) :
    pyInt ⟨c :: rest⟩ = some (digitsToNat (c :: rest) : Int) :=
  pyIntAux_digits c rest h

lemma lastChar_append (l : List Char) (c : Char) : lastChar ⟨l ++ [c]⟩ = c := by
  simp [lastChar]

lemma strInit_append (l : List Char) (c : Char) : strInit ⟨l ++ [c]⟩ = ⟨l⟩ := by
  simp [strInit]

lemma mk_append_ne_empty (l : List Char) (c : Char) :
    (⟨l ++ [c]⟩ : String) ≠ "" := by
  intro h
  have : l ++ [c] = ([] : List Char) := congrArg String.data h
  simp at this

/-- The only results `verify_threads` can produce. -/
lemma verify_threads_shape (t : Option Int) :
    (∃ n, verify_threads t = .ok n) ∨ verify_threads t = .sysExit 1 := by
  cases t with
  | none => exact Or.inl ⟨10, rfl⟩
  | some n =>
      by_cases h0 : n = 0
      · subst h0; exact Or.inl ⟨10, rfl⟩
      · by_cases hM : n > MAX_THREADS
        · right; simp [verify_threads, h0, hM]
        · left; exact ⟨n, by simp [verify_threads, h0, hM]⟩

/-- The only results `verify_size` can produce. -/
lemma verify_size_shape (sz : Option String) :
    (∃ z, verify_size sz = .ok z) ∨ verify_size sz = .sysExit 1 ∨
      verify_size sz = .exn "ValueError" := by
  cases sz with
  | none => exact Or.inl ⟨none, rfl⟩
  | some s =>
      by_cases he : s = ""
      · exact Or.inl ⟨none, by simp [verify_size, he]⟩
      · by_cases hK : lastChar s = 'K'
        · cases hp : pyInt (strInit s) with
          | none => right; right; simp [verify_size, he, hK, hp]
          | some n => left; exact ⟨some (n * 1024), by simp [verify_size, he, hK, hp]⟩
        · by_cases hM : lastChar s = 'M'
          · cases hp : pyInt (strInit s) with
            | none => right; right; simp [verify_size, he, hK, hM, hp]
            | some n =>
                left; exact ⟨some (n * 1024 * 1024), by simp [verify_size, he, hK, hM, hp]⟩
          · by_cases hG : lastChar s = 'G'
            · cases hp : pyInt (strInit s) with
              | none => right; right; simp [verify_size, he, hK, hM, hG, hp]
              | some n =>
                  left
                  exact ⟨some (n * 1024 * 1024 * 1024),
                    by simp [verify_size, he, hK, hM, hG, hp]⟩
            · right; left; simp [verify_size, he, hK, hM, hG]

/-- `verify_operation` either accepts the operation or exits 1. -/
lemma verify_operation_shape (op : String) :
    verify_operation op = .ok op ∨ verify_operation op = .sysExit 1 := by
  by_cases h : op = "upload" ∨ op = "download"
  · left; simp [verify_operation, h]
  · right; simp [verify_operation, h]

/-- An invalid size suffix makes `verify_size` call `sys.exit(1)`. -/
lemma verify_size_invalid (s : String) (he : s ≠ "")
    (hK : lastChar s ≠ 'K') (hM : lastChar s ≠ 'M') (hG : lastChar s ≠ 'G') :
    verify_size (some s) = .sysExit 1 := by
  simp [verify_size, he, hK, hM, hG]

/-! ## Claim theorems: argument handling -/

/-- The per-suffix multiplier of `verify_args` (lines 196-201). -/
def sizeMult (c : Char) : Int :=
  if c = 'K' then 1024
  else if c = 'M' then 1024 * 1024
  else 1024 * 1024 * 1024

/-- C3: a size argument `<digits><K|M|G>` parses to the digits' value times
1024 / 1024² / 1024³; a size argument whose last character is none of
`K`/`M`/`G` makes the run call `sys.exit(1)` during verification, with the
store client never created, no item enqueued and no worker started. -/
theorem size_suffix_parsing :
    (∀ (num : List Char) (c : Char), num ≠ [] → num.all isDigit = true →
        c = 'K' ∨ c = 'M' ∨ c = 'G' →
        verify_size (some ⟨num ++ [c]⟩) =
          .ok (some ((digitsToNat num : Int) * sizeMult c))) ∧
    (∀ (a : Args) (s : String), a.size = some s → s ≠ "" →
        lastChar s ≠ 'K' → lastChar s ≠ 'M' → lastChar s ≠ 'G' →
        mainStandalone a = (.sysExit 1, initTrace)) := by
  constructor
  · intro num c hne hdig hc
    obtain ⟨d, rest, rfl⟩ : ∃ d rest, num = d :: rest := by
      cases num with
      | nil => exact absurd rfl hne
      | cons d rest => exact ⟨d, rest, rfl⟩
    have hemp := mk_append_ne_empty (d :: rest) c
    have hlast := lastChar_append (d :: rest) c
    have hinit : pyInt (strInit ⟨(d :: rest) ++ [c]⟩) =
        some (digitsToNat (d :: rest) : Int) := by
      rw [strInit_append]
      exact pyInt_digits d rest hdig
    simp only [List.cons_append] at hemp hlast hinit
    rcases hc with rfl | rfl | rfl <;>
      simp [verify_size, hemp, hlast, hinit, sizeMult, mul_assoc]
  · intro a s ha hne hK hM hG
    have hsz : verify_size a.size = .sysExit 1 := by
      rw [ha]; exact verify_size_invalid s hne hK hM hG
    rcases verify_threads_shape a.threads with ⟨t, ht⟩ | ht
    · simp [mainStandalone, verify_args, ht, hsz]
    · simp [mainStandalone, verify_args, ht]

/-- C5 counterexample: the empty string is a prefix argument that does not
end in `'/'`, yet `verify_args` leaves it `""` rather than appending `'/'`
(the `if args.prefix:` truthiness test routes `""` to the falsy branch). -/
theorem pfx_empty_counterexample :
    verify_pfx (some "") = "" ∧ verify_pfx (some "") ≠ "" ++ "/" := by
  constructor
  · decide
  · decide

/-- C5 (amended): a non-empty prefix argument not ending in `'/'` gets a
`'/'` appended; a non-empty prefix ending in `'/'` is unchanged; an absent
or empty prefix argument yields the empty string. -/
theorem pfx_normalization :
    (∀ s : String, s ≠ "" → lastChar s ≠ '/' → verify_pfx (some s) = s ++ "/") ∧
    (∀ s : String, s ≠ "" → lastChar s = '/' → verify_pfx (some s) = s) ∧
    verify_pfx none = "" ∧ verify_pfx (some "") = "" := by
  refine ⟨?_, ?_, rfl, rfl⟩
  · intro s hne hs
    simp [verify_pfx, hne, hs]
  · intro s hne hs
    simp [verify_pfx, hne, hs]

/-- C6: an operation name other than `upload`/`download`, or a thread count
over `MAX_THREADS = 100`, is caught inside `verify_args`: the process exits
non-zero and the `__main__` trace stays at its initial value — the S3
client is never constructed, nothing is enqueued, no thread is started. -/
theorem config_errors_fatal :
    MAX_THREADS = 100 ∧
    ∀ a : Args,
      ((a.operation ≠ "upload" ∧ a.operation ≠ "download") ∨
        ∃ n, a.threads = some n ∧ MAX_THREADS < n) →
      (mainStandalone a).1.exitsNonZero = true ∧ (mainStandalone a).2 = initTrace := by
  refine ⟨rfl, ?_⟩
  intro a h
  rcases h with ⟨h1, h2⟩ | ⟨n, hn, hgt⟩
  · have hop : verify_operation a.operation = .sysExit 1 := by
      simp [verify_operation, h1, h2]
    rcases verify_threads_shape a.threads with ⟨t, ht⟩ | ht
    · rcases verify_size_shape a.size with ⟨z, hz⟩ | hz | hz
      · constructor <;> simp [mainStandalone, verify_args, ht, hz, hop,
          PyOutcome.exitsNonZero]
      · constructor <;> simp [mainStandalone, verify_args, ht, hz,
          PyOutcome.exitsNonZero]
      · constructor <;> simp [mainStandalone, verify_args, ht, hz,
          PyOutcome.exitsNonZero]
    · constructor <;> simp [mainStandalone, verify_args, ht, PyOutcome.exitsNonZero]
  · have hn0 : ¬ n = 0 := by
      rw [MAX_THREADS] at hgt; omega
    have ht : verify_threads a.threads = .sysExit 1 := by
      rw [hn]
      simp [verify_threads, hn0, hgt]
    constructor <;> simp [mainStandalone, verify_args, ht, PyOutcome.exitsNonZero]

/-- C8: the seeding loop enqueues exactly `count` items, and the effective
object keys (the enqueued names as `put_object` prefixes them) are the
fixed sequence `p ++ "testfile-0", …, p ++ "testfile-(count-1)"` — a pure
function of the configuration, so two runs with the same prefix and count
address the identical ordered key sequence. -/
theorem seeding_deterministic (p : String) (count : Nat) :
    (seedKeys count).length = count ∧
    effectiveKeys p count =
      (List.range count).map (fun i => p ++ ("testfile-" ++ toString i)) := by
  constructor
  · simp [seedKeys]
  · simp [effectiveKeys, seedKeys, put_object_key, List.map_map]

/-- C9: a requested thread count of 0 is neither rejected nor honored:
`if args.threads:` is falsy at 0, so verification silently replaces it by
the default 10, and a run that proceeds past seeding starts 10 workers. -/
theorem zero_threads_silently_defaults :
    verify_threads (some 0) = .ok 10 ∧
    (∀ (a : Args) (v : VArgs) (k : Int), a.threads = some 0 →
        verify_args a = .ok v → pyInt a.number = some k →
        v.threads = 10 ∧ (mainStandalone a).2.workersStarted = 10) := by
  refine ⟨rfl, ?_⟩
  intro a v k ha hv hk
  have hthreads : v.threads = 10 := by
    rw [verify_args, ha] at hv
    rcases verify_size_shape a.size with ⟨z, hz⟩ | hz | hz
    · rcases verify_operation_shape a.operation with hop | hop
      · rw [show verify_threads (some 0) = .ok 10 from rfl, hz, hop] at hv
        cases hv
        rfl
      · rw [show verify_threads (some 0) = .ok 10 from rfl, hz, hop] at hv
        cases hv
    · rw [show verify_threads (some 0) = .ok 10 from rfl, hz] at hv
      cases hv
    · rw [show verify_threads (some 0) = .ok 10 from rfl, hz] at hv
      cases hv
  refine ⟨hthreads, ?_⟩
  simp [mainStandalone, hv, hk, hthreads]

/-- C10: `verify_args` never reads `args.number`, so verification accepts
any number string; when `int(args.number)` then fails at seeding time
(line 242), the run dies on an uncaught `ValueError` with the S3 client
already created but zero items enqueued, zero workers started, and
`que.join()` never reached. -/
theorem number_unvalidated_crashes_at_seeding :
    (∀ (a : Args) (m : String),
        verify_args ⟨a.threads, a.endpoint, a.key, a.secret, a.bucket,
          a.pfx, a.size, a.operation, m⟩ = verify_args a) ∧
    (∀ (a : Args) (v : VArgs), verify_args a = .ok v → pyInt a.number = none →
        mainStandalone a = (.exn "ValueError", ⟨true, 0, 0, false⟩)) := by
  constructor
  · intro a m
    rfl
  · intro a v hv hn
    simp [mainStandalone, hv, hn]

/-! ## Invariants of the worker system -/

/-- No transition of the system ever issues a get-object style call:
the `S3` wrapper (lines 10-74) has no `download`/get method, so the
download branch dies on `AttributeError` before any store call. -/
lemma wstep_getCalls {op : Op} {sz : Option Int} {err : String → Bool}
    {s t : SysState} (h : WorkerStep op sz err s t) :
    t.getCalls = s.getCalls := by
  cases h <;> rfl

/-- A step leaves `unfinished_tasks` and the `task_done` count unchanged
unless the full upload success path (`procUploadOk`) can fire. -/
lemma wstep_counters {op : Op} {sz : Option Int} {err : String → Bool}
    {s t : SysState} (h : WorkerStep op sz err s t)
    (hblock : ∀ (x : String) (b : Int), op = .upload →
      random_file sz = .ok b → err x = false → False) :
    t.unfinished = s.unfinished ∧ t.taskDone = s.taskDone := by
  cases h with
  | procUploadOk i _ x b hw hop hrf herr => exact (hblock x b hop hrf herr).elim
  | checkNonempty i _ hw hq => exact ⟨rfl, rfl⟩
  | checkEmpty i _ hw hq => exact ⟨rfl, rfl⟩
  | getItem i _ x rest hw hq => exact ⟨rfl, rfl⟩
  | getBlocked i _ hw hq => exact ⟨rfl, rfl⟩
  | procUploadNoPayload i _ x e hw hop hrf => exact ⟨rfl, rfl⟩
  | procUploadRaise i _ x b hw hop hrf herr => exact ⟨rfl, rfl⟩
  | procDownload i _ x hw hop => exact ⟨rfl, rfl⟩

/-- A step leaves the list of issued `put_object` calls unchanged whenever
`random_file` cannot return a payload (both put-issuing rules need one). -/
lemma wstep_putCalls {op : Op} {sz : Option Int} {err : String → Bool}
    {s t : SysState} (h : WorkerStep op sz err s t)
    (hblock : ∀ b : Int, op = .upload → random_file sz = .ok b → False) :
    t.putCalls = s.putCalls := by
  cases h with
  | procUploadOk i _ x b hw hop hrf herr => exact (hblock b hop hrf).elim
  | procUploadRaise i _ x b hw hop hrf herr => exact (hblock b hop hrf).elim
  | checkNonempty i _ hw hq => rfl
  | checkEmpty i _ hw hq => rfl
  | getItem i _ x rest hw hq => rfl
  | getBlocked i _ hw hq => rfl
  | procUploadNoPayload i _ x e hw hop hrf => rfl
  | procDownload i _ x hw hop => rfl

/-- `getCalls` is invariant along every execution. -/
lemma wreach_getCalls {op : Op} {sz : Option Int} {err : String → Bool}
    {s0 s : SysState} (h : WReach op sz err s0 s) :
    s.getCalls = s0.getCalls := by
  induction h with
  | refl => rfl
  | tail h1 h2 ih => exact (wstep_getCalls h2).trans ih

/-- `unfinished_tasks` and the `task_done` count are invariant along every
execution on which the upload success path can never fire. -/
lemma wreach_counters {op : Op} {sz : Option Int} {err : String → Bool}
    {s0 s : SysState}
    (hblock : ∀ (x : String) (b : Int), op = .upload →
      random_file sz = .ok b → err x = false → False)
    (h : WReach op sz err s0 s) :
    s.unfinished = s0.unfinished ∧ s.taskDone = s0.taskDone := by
  induction h with
  | refl => exact ⟨rfl, rfl⟩
  | tail h1 h2 ih =>
      obtain ⟨h3, h4⟩ := wstep_counters h2 hblock
      exact ⟨h3.trans ih.1, h4.trans ih.2⟩

/-- `putCalls` is invariant along every execution on which `random_file`
cannot produce a payload. -/
lemma wreach_putCalls {op : Op} {sz : Option Int} {err : String → Bool}
    {s0 s : SysState}
    (hblock : ∀ b : Int, op = .upload → random_file sz = .ok b → False)
    (h : WReach op sz err s0 s) :
    s.putCalls = s0.putCalls := by
  induction h with
  | refl => rfl
  | tail h1 h2 ih => exact (wstep_putCalls h2 hblock).trans ih

/-- A store back end that never raises on `put_object`. -/
def noStoreErr : String → Bool := fun _ => false

/-- A store back end that raises on every `put_object` call. -/
def allStoreErr : String → Bool := fun _ => true

/-- In a one-item one-worker download run, the worker withdraws the item
and then dies on the undefined `s3.download` attribute. -/
lemma download_reaches_crashed :
    ∃ s, WReach .download none noStoreErr (initSys 1 1) s ∧
      s.workers = [WStatus.crashed] := by
  refine ⟨_, Relation.ReflTransGen.head
      (WorkerStep.checkNonempty 0 (initSys 1 1) (by decide) (by decide))
    (Relation.ReflTransGen.head
      (WorkerStep.getItem 0 _ "testfile-0" [] (by decide) (by decide))
    (Relation.ReflTransGen.head
      (WorkerStep.procDownload 0 _ "testfile-0" (by decide) rfl)
      Relation.ReflTransGen.refl)), ?_⟩
  decide

/-- In a one-item one-worker upload run against a store that raises, the
worker withdraws the item, issues the `put_object` call, and dies on the
propagating exception before `que.task_done()`. -/
lemma upload_raise_reaches_crashed :
    ∃ s, WReach .upload (some 1024) allStoreErr (initSys 1 1) s ∧
      s.workers = [WStatus.crashed] ∧ s.putCalls = ["testfile-0"] := by
  refine ⟨_, Relation.ReflTransGen.head
      (WorkerStep.checkNonempty 0 (initSys 1 1) (by decide) (by decide))
    (Relation.ReflTransGen.head
      (WorkerStep.getItem 0 _ "testfile-0" [] (by decide) (by decide))
    (Relation.ReflTransGen.head
      (WorkerStep.procUploadRaise 0 _ "testfile-0" 1024 (by decide) rfl
        (by decide) rfl)
      Relation.ReflTransGen.refl)), ?_, ?_⟩ <;> decide

/-- In a one-item one-worker upload run with `size = None`, the worker
withdraws the item and dies on `os.urandom(None)`'s `TypeError` before
`put_object` is ever reached. -/
lemma upload_nosize_reaches_crashed :
    ∃ s, WReach .upload none noStoreErr (initSys 1 1) s ∧
      s.workers = [WStatus.crashed] ∧ s.putCalls = [] := by
  refine ⟨_, Relation.ReflTransGen.head
      (WorkerStep.checkNonempty 0 (initSys 1 1) (by decide) (by decide))
    (Relation.ReflTransGen.head
      (WorkerStep.getItem 0 _ "testfile-0" [] (by decide) (by decide))
    (Relation.ReflTransGen.head
      (WorkerStep.procUploadNoPayload 0 _ "testfile-0" "TypeError"
        (by decide) rfl rfl)
      Relation.ReflTransGen.refl)), ?_, ?_⟩ <;> decide

/-! ## Claim theorems: the worker system -/

/-- C1: in the download run with N = 1 item and W = 1 worker, every
reachable state still has `unfinished_tasks = 1` and zero `task_done`
calls, so `que.join()` never returns — the run hangs instead of draining;
and the state where the lone worker has crashed (on the undefined
`s3.download`) is reached. The claim that `join` neither returns early
nor hangs and that exactly N `task_done` calls occur fails on this run. -/
theorem join_hangs_on_download :
    (∀ s, WReach .download none noStoreErr (initSys 1 1) s →
        s.unfinished = 1 ∧ s.taskDone = 0 ∧ ¬ joinReturns s) ∧
    (∃ s, WReach .download none noStoreErr (initSys 1 1) s ∧
        s.workers = [WStatus.crashed]) := by
  constructor
  · intro s h
    have hblock : ∀ (x : String) (b : Int), Op.download = Op.upload →
        random_file none = .ok b → noStoreErr x = false → False := by
      intro x b hop _ _
      cases hop
    obtain ⟨h1, h2⟩ := wreach_counters hblock h
    have h1' : s.unfinished = 1 := h1
    have h2' : s.taskDone = 0 := h2
    refine ⟨h1', h2', ?_⟩
    intro hj
    have : s.unfinished = 0 := hj
    omega
  · exact download_reaches_crashed

/-- C2: in a one-item one-worker upload run whose `put_object` call
raises, no `task_done` ever happens (`unfinished_tasks` stays 1, so the
run never completes and `que.join()` never returns) and the worker thread
reaches the crashed state after issuing the failing call: the worker
neither records the failure nor marks the item done nor proceeds —
there is no `try`/`except` in `worker`. -/
theorem store_error_kills_worker_and_run :
    (∀ s, WReach .upload (some 1024) allStoreErr (initSys 1 1) s →
        s.taskDone = 0 ∧ s.unfinished = 1 ∧ ¬ joinReturns s) ∧
    (∃ s, WReach .upload (some 1024) allStoreErr (initSys 1 1) s ∧
        s.workers = [WStatus.crashed] ∧ s.putCalls = ["testfile-0"]) := by
  constructor
  · intro s h
    have hblock : ∀ (x : String) (b : Int), Op.upload = Op.upload →
        random_file (some 1024) = .ok b → allStoreErr x = false → False := by
      intro x b _ _ herr
      simp [allStoreErr] at herr
    obtain ⟨h1, h2⟩ := wreach_counters hblock h
    have h1' : s.unfinished = 1 := h1
    have h2' : s.taskDone = 0 := h2
    refine ⟨h2', h1', ?_⟩
    intro hj
    have : s.unfinished = 0 := hj
    omega
  · exact upload_raise_reaches_crashed

/-- C4: `verify_args` gives an omitted size flag no default — the parsed
size stays `None` — and in the one-item one-worker upload run with
`size = None` no `put_object` call is ever issued (so no 1024-byte upload
happens): the worker crashes on `os.urandom(None)`'s `TypeError` and the
item is never marked done. -/
theorem omitted_size_has_no_default :
    verify_size none = .ok none ∧
    (∀ s, WReach .upload none noStoreErr (initSys 1 1) s →
        s.putCalls = [] ∧ s.unfinished = 1 ∧ s.taskDone = 0) ∧
    (∃ s, WReach .upload none noStoreErr (initSys 1 1) s ∧
        s.workers = [WStatus.crashed] ∧ s.putCalls = []) := by
  refine ⟨rfl, ?_, upload_nosize_reaches_crashed⟩
  intro s h
  have hblockP : ∀ b : Int, Op.upload = Op.upload →
      random_file none = .ok b → False := by
    intro b _ hrf
    exact PyOutcome.noConfusion hrf
  have hblock : ∀ (x : String) (b : Int), Op.upload = Op.upload →
      random_file none = .ok b → noStoreErr x = false → False := by
    intro x b _ hrf _
    exact PyOutcome.noConfusion hrf
  obtain ⟨h1, h2⟩ := wreach_counters hblock h
  exact ⟨wreach_putCalls hblockP h, h1, h2⟩

/-- C7: in the one-item one-worker download run, no get-object style call
is ever issued against the store (the `S3` wrapper has no such method; the
worker dies on `AttributeError` instead) and the withdrawn item is never
marked done — contradicting "exactly one get-object call using the item's
key, after which the worker marks the item done". -/
theorem download_performs_no_get :
    (∀ s, WReach .download none noStoreErr (initSys 1 1) s →
        s.getCalls = [] ∧ s.taskDone = 0) ∧
    (∃ s, WReach .download none noStoreErr (initSys 1 1) s ∧
        s.workers = [WStatus.crashed]) := by
  constructor
  · intro s h
    have hblock : ∀ (x : String) (b : Int), Op.download = Op.upload →
        random_file none = .ok b → noStoreErr x = false → False := by
      intro x b hop _ _
      cases hop
    obtain ⟨h1, h2⟩ := wreach_counters hblock h
    have hg : s.getCalls = [] := wreach_getCalls h
    exact ⟨hg, h2⟩
  · exact download_reaches_crashed

/-! ## Concrete instantiations -/

/-- A standalone invocation with an invalid size suffix (`-sz 10X`). -/
def argsBadSize : Args :=
  ⟨some 5, "http://s3.example", "AK", "SK", "bucket", none, some "10X", "upload", "50"⟩

/-- A standalone invocation with an invalid operation (`-o delete`). -/
def argsBadOp : Args :=
  ⟨some 5, "http://s3.example", "AK", "SK", "bucket", none, none, "delete", "50"⟩

/-- A standalone invocation requesting 101 threads. -/
def argsTooManyThreads : Args :=
  ⟨some 101, "http://s3.example", "AK", "SK", "bucket", none, none, "upload", "50"⟩

/-- A standalone invocation requesting 0 threads (`-t 0`). -/
def argsZeroThreads : Args :=
  ⟨some 0, "http://s3.example", "AK", "SK", "bucket", none, none, "upload", "5"⟩

/-- A standalone invocation with a non-integer item count (`-n abc`). -/
def argsBadNumber : Args :=
  ⟨some 2, "http://s3.example", "AK", "SK", "bucket", none, none, "upload", "abc"⟩

/-- C1 witness: the download system's initial state (a run with one item
and one worker) satisfies the invariant that blocks `que.join()`. -/
theorem join_hangs_on_download_witness :
    (initSys 1 1).unfinished = 1 ∧ (initSys 1 1).taskDone = 0 ∧
      ¬ joinReturns (initSys 1 1) :=
  join_hangs_on_download.1 (initSys 1 1) Relation.ReflTransGen.refl

/-- C2 witness: the failing-upload system's initial state already carries
no `task_done` and an outstanding item. -/
theorem store_error_kills_worker_and_run_witness :
    (initSys 1 1).taskDone = 0 ∧ (initSys 1 1).unfinished = 1 ∧
      ¬ joinReturns (initSys 1 1) :=
  store_error_kills_worker_and_run.1 (initSys 1 1) Relation.ReflTransGen.refl

/-- C3 witness: `"10K"` parses to 10240 bytes, and a run invoked with
`-sz 10X` exits 1 with nothing started. -/
theorem size_suffix_parsing_witness :
    verify_size (some ⟨"10".data ++ ['K']⟩) =
      .ok (some ((digitsToNat "10".data : Int) * sizeMult 'K')) ∧
    mainStandalone argsBadSize = (.sysExit 1, initTrace) :=
  ⟨size_suffix_parsing.1 "10".data 'K' (by decide) (by decide) (Or.inl rfl),
   size_suffix_parsing.2 argsBadSize "10X" rfl (by decide) (by decide) (by decide)
     (by decide)⟩

/-- C4 witness: the no-size upload system's initial state has no
`put_object` calls and its one item outstanding. -/
theorem omitted_size_has_no_default_witness :
    (initSys 1 1).putCalls = [] ∧ (initSys 1 1).unfinished = 1 ∧
      (initSys 1 1).taskDone = 0 :=
  omitted_size_has_no_default.2.1 (initSys 1 1) Relation.ReflTransGen.refl

/-- C5 witness: `"bench"` gains a slash, `"bench/"` is unchanged. -/
theorem pfx_normalization_witness :
    verify_pfx (some "bench") = "bench" ++ "/" ∧
      verify_pfx (some "bench/") = "bench/" :=
  ⟨pfx_normalization.1 "bench" (by decide) (by decide),
   pfx_normalization.2.1 "bench/" (by decide) (by decide)⟩

/-- C6 witness: `-o delete` and `-t 101` both die in verification with
nothing created, enqueued or started. -/
theorem config_errors_fatal_witness :
    ((mainStandalone argsBadOp).1.exitsNonZero = true ∧
      (mainStandalone argsBadOp).2 = initTrace) ∧
    ((mainStandalone argsTooManyThreads).1.exitsNonZero = true ∧
      (mainStandalone argsTooManyThreads).2 = initTrace) :=
  ⟨config_errors_fatal.2 argsBadOp (Or.inl ⟨by decide, by decide⟩),
   config_errors_fatal.2 argsTooManyThreads (Or.inr ⟨101, rfl, by decide⟩)⟩

/-- C7 witness: the download system's initial state has no get-object
calls and no `task_done`. -/
theorem download_performs_no_get_witness :
    (initSys 1 1).getCalls = [] ∧ (initSys 1 1).taskDone = 0 :=
  download_performs_no_get.1 (initSys 1 1) Relation.ReflTransGen.refl

/-- C9 witness: a `-t 0` run verifies to 10 threads and starts 10 workers. -/
theorem zero_threads_silently_defaults_witness :
    (⟨10, none, "", "upload"⟩ : VArgs).threads = 10 ∧
      (mainStandalone argsZeroThreads).2.workersStarted = 10 :=
  zero_threads_silently_defaults.2 argsZeroThreads ⟨10, none, "", "upload"⟩ 5 rfl
    (by decide) (by decide)

/-- C10 witness: a `-n abc` run passes verification, then dies on
`ValueError` at seeding with the client created and nothing else done. -/
theorem number_unvalidated_crashes_at_seeding_witness :
    mainStandalone argsBadNumber = (.exn "ValueError", ⟨true, 0, 0, false⟩) :=
  number_unvalidated_crashes_at_seeding.2 argsBadNumber ⟨2, none, "", "upload"⟩
    (by decide) (by decide)
